import Mathlib

/-!
Verification of the presence / notification / ordering subsystem of the
Ticket-Dashboard repository, as a shallow embedding in Lean.

The backend keeps a `users` table (Postgres) with `is_online` and `last_seen`
columns, a `tickets` table with `status` and `order_index` columns, and a
Socket.io registry of live connections.  Tables are modelled as lists of rows,
timestamps as integers (epoch seconds), and each SQL query / handler as a pure
function on those lists.  Row update statements (`UPDATE ... WHERE id = $n`)
update every matching row, `rows[0]` is `List.head?` of the filtered rows.
-/

namespace TicketDashboard

/-- Row of the `users` table (columns used by the subsystem). -/
structure User where
  id : String
  email : String
  is_online : Bool
  last_seen : Int
  created_at : Int
  deriving DecidableEq

/-- The `TicketStatus` enum from `types`: stored as the text values
`TODO`, `IN_PROGRESS`, `DONE`. -/
inductive TicketStatus
  | TODO
  | IN_PROGRESS
  | DONE
  deriving DecidableEq

/-- The `TicketPriority` enum from `types`. -/
inductive TicketPriority
  | LOW
  | MEDIUM
  | HIGH
  deriving DecidableEq

/-- The `TicketType` enum from `types`. -/
inductive TicketType
  | BUG
  | FEATURE
  | IMPROVEMENT
  | TASK
  deriving DecidableEq

/-- Row of the `tickets` table (columns used by the subsystem). -/
structure Ticket where
  id : String
  project_id : String
  title : String
  status : TicketStatus
  priority : TicketPriority
  type : TicketType
  order_index : Int
  created_at : Int
  deriving DecidableEq

/-- `CONFIG.DEFAULT_TICKET_ORDER_INCREMENT` from `config/constants`. -/
def CONFIG_DEFAULT_TICKET_ORDER_INCREMENT : Int := 1000

/-! ### User queries (`models/queries.ts`) -/

/-- `findUserById`: `SELECT * FROM users WHERE id = $1`, `rows[0] || null`. -/
def findUserById (users : List User) (userId : String) : Option User :=
  (users.filter (fun u => u.id == userId)).head?

/-- `updateUserLastSeen`: `UPDATE users SET last_seen = CURRENT_TIMESTAMP
WHERE id = $1`. -/
def updateUserLastSeen (users : List User) (now : Int) (userId : String) :
    List User :=
  users.map (fun u => if u.id == userId then { u with last_seen := now } else u)

/-- `setUserOnlineStatus`: `UPDATE users SET is_online = $1,
last_seen = CURRENT_TIMESTAMP WHERE id = $2`. -/
def setUserOnlineStatus (users : List User) (now : Int) (userId : String)
    (isOnline : Bool) : List User :=
  users.map (fun u =>
    if u.id == userId then { u with is_online := isOnline, last_seen := now }
    else u)

/-- `isUserOffline`: the query selects `is_online`, `last_seen` and
`(EXTRACT(EPOCH FROM (CURRENT_TIMESTAMP - last_seen)) > 120) as is_stale`
for `WHERE id = $1`; if `rows[0]` is absent the function returns `true`
("user not found, consider offline"), else `!is_online || is_stale`. -/
def isUserOffline (users : List User) (now : Int) (userId : String) : Bool :=
  match (users.filter (fun u => u.id == userId)).head? with
  | none => true
  | some u => !u.is_online || decide (now - u.last_seen > 120)

/-- `getAllUsersExcept`: `SELECT * FROM users WHERE id != $1
ORDER BY created_at DESC`. -/
def getAllUsersExcept (users : List User) (excludeUserId : String) :
    List User :=
  List.insertionSort (fun a b => b.created_at ≤ a.created_at)
    (users.filter (fun u => u.id != excludeUserId))

/-! ### Socket registry and the handlers of `config/socket.ts` -/

/-- One live Socket.io connection: its socket id, the authenticated user
attached by the auth middleware (`socket.data.user`), and the rooms the
socket has joined. -/
structure Socket where
  sid : String
  userId : String
  rooms : List String
  deriving DecidableEq

/-- Server state: the `users` table and the live connection registry. -/
structure ServerState where
  users : List User
  sockets : List Socket
  deriving DecidableEq

/-- The `connection` handler of `config/socket.ts` (inside
`initializeSocket`): sets the user online via `setUserOnlineStatus(userId,
true)` and the new socket joins its user room `"user-" ++ userId`. -/
def onConnection (st : ServerState) (sid userId : String) (now : Int) :
    ServerState :=
  { users := setUserOnlineStatus st.users now userId true,
    sockets := st.sockets ++ [{ sid := sid, userId := userId,
                                rooms := ["user-" ++ userId] }] }

/-- The `join-project` handler: `socket.join("project-" ++ projectId)`. -/
def onJoinProject (st : ServerState) (sid projectId : String) : ServerState :=
  { st with
    sockets := st.sockets.map (fun s =>
      if s.sid == sid then
        { s with rooms := s.rooms ++ ["project-" ++ projectId] }
      else s) }

/-- The `disconnect` handler: unconditionally calls
`setUserOnlineStatus(user.userId, false)` for the disconnecting socket's
user (no check for other live connections of the same user), and the
socket leaves the registry. -/
def onDisconnect (st : ServerState) (sid : String) (now : Int) : ServerState :=
  match st.sockets.find? (fun s => s.sid == sid) with
  | none => st
  | some s =>
      { users := setUserOnlineStatus st.users now s.userId false,
        sockets := st.sockets.filter (fun x => x.sid != sid) }

/-- Sockets that receive an `io.to(room).emit(...)` broadcast: every live
socket that has joined `room`. -/
def roomRecipients (st : ServerState) (room : String) : List Socket :=
  st.sockets.filter (fun s => s.rooms.contains room)

/-- `notifyProjectRoom` of `services/notificationService.ts` (and the inline
`io.to(...)` calls of the ticket controller): the board-update broadcast is
emitted to room `"project:" ++ projectId`. -/
def notifyProjectRoom (st : ServerState) (projectId : String) : List Socket :=
  roomRecipients st ("project:" ++ projectId)

/-! ### Helper lemmas -/

/-- Any row of `setUserOnlineStatus` output whose id is the updated id has
its `is_online` set to the argument and `last_seen` set to `now`. -/
theorem setUserOnlineStatus_updated {users : List User} {now : Int}
    {userId : String} {b : Bool} {u : User}
    (hmem : u ∈ setUserOnlineStatus users now userId b) (hid : u.id = userId) :
    u.is_online = b ∧ u.last_seen = now := by
  rcases List.mem_map.mp hmem with ⟨v, _, hv⟩
  by_cases h : v.id == userId
  · rw [if_pos h] at hv
    subst hv
    exact ⟨rfl, rfl⟩
  · rw [if_neg h] at hv
    subst hv
    exact absurd (beq_iff_eq.mpr hid) h

/-! ### Ticket queries (`models/queries.ts`) -/

/-- `getTicketById`: `SELECT ... FROM tickets t ... WHERE t.id = $1`,
`rows[0] || null`. -/
def getTicketById (tickets : List Ticket) (ticketId : String) : Option Ticket :=
  (tickets.filter (fun t => t.id == ticketId)).head?

/-- `getMaxOrderIndex`: `SELECT COALESCE(MAX(order_index), 0) as max_order
FROM tickets WHERE project_id = $1 AND status = $2` — 0 only when the lane
holds no tickets, else the maximum of the stored `order_index` values. -/
def getMaxOrderIndex (tickets : List Ticket) (projectId : String)
    (status : TicketStatus) : Int :=
  match (tickets.filter
      (fun t => t.project_id == projectId && t.status == status)).map
      (fun t => t.order_index) with
  | [] => 0
  | v :: vs => vs.foldl max v

/-- The `updateTicket` query as invoked by the move controller with exactly
`{ status, order_index }`: `UPDATE tickets SET status = $1,
order_index = $2 WHERE id = $3`. -/
def updateTicketStatusOrder (tickets : List Ticket) (ticketId : String)
    (status : TicketStatus) (order_index : Int) : List Ticket :=
  tickets.map (fun t =>
    if t.id == ticketId then
      { t with status := status, order_index := order_index }
    else t)

/-- Rank of the stored text values of the `status` column under SQL text
ordering, as used by `ORDER BY t.status`: alphabetically
`DONE` < `IN_PROGRESS` < `TODO`. -/
def statusRank : TicketStatus → Nat
  | TicketStatus.DONE => 0
  | TicketStatus.IN_PROGRESS => 1
  | TicketStatus.TODO => 2

/-- The sort key of `getProjectTickets`: `ORDER BY t.status,
t.order_index ASC`.  No further key appears in the query, so rows that
compare equal under this relation are in an engine-chosen order. -/
def ticketSqlLe (a b : Ticket) : Prop :=
  statusRank a.status < statusRank b.status ∨
    (statusRank a.status = statusRank b.status ∧
      a.order_index ≤ b.order_index)

instance : DecidableRel ticketSqlLe := fun a b => by
  unfold ticketSqlLe
  infer_instance

instance : IsTotal Ticket ticketSqlLe :=
  ⟨fun a b => by unfold ticketSqlLe; omega⟩

instance : IsTrans Ticket ticketSqlLe :=
  ⟨fun a b c => by unfold ticketSqlLe; omega⟩

/-- `getProjectTickets`: `SELECT ... FROM tickets t ... WHERE t.project_id
= $1 ORDER BY t.status, t.order_index ASC`.  The `ORDER BY` fixes only the
(status, order_index) key; rows with equal keys come back in an
engine-determined order, modelled here as the stored row order (a stable
sort of the table). -/
def getProjectTickets (tickets : List Ticket) (projectId : String) :
    List Ticket :=
  List.insertionSort ticketSqlLe
    (tickets.filter (fun t => t.project_id == projectId))

/-- The spec's `listByLane`: one lane of the `getProjectTickets` result
(the frontend splits the fetched project tickets by status column). -/
def listByLane (tickets : List Ticket) (projectId : String)
    (lane : TicketStatus) : List Ticket :=
  (getProjectTickets tickets projectId).filter (fun t => t.status == lane)

/-! ### Ticket creation (`ticketController.createTicket`) -/

/-- `CreateTicketDTO` as it reaches the controller.  The TS interface has no
`status` field and `validateBody(createTicketSchema)` strips unknown body
keys; `clientStatus` models any status a client tried to supply, carried
through the object spreads, to express that the controller overrides it. -/
structure CreateTicketDTO where
  project_id : String
  title : String
  priority : Option TicketPriority
  type : TicketType
  clientStatus : Option TicketStatus
  deriving DecidableEq

/-- `TicketFactory.createTicket`: fills in the type-specific default
priority (`BUG` → HIGH, `FEATURE` → MEDIUM, `IMPROVEMENT` → LOW,
`TASK`/default → MEDIUM) when the client supplied none. -/
def TicketFactory_createTicket (ty : TicketType) (data : CreateTicketDTO) :
    CreateTicketDTO :=
  match ty with
  | TicketType.BUG =>
      { data with type := TicketType.BUG,
                  priority := some (data.priority.getD TicketPriority.HIGH) }
  | TicketType.FEATURE =>
      { data with type := TicketType.FEATURE,
                  priority := some (data.priority.getD TicketPriority.MEDIUM) }
  | TicketType.IMPROVEMENT =>
      { data with type := TicketType.IMPROVEMENT,
                  priority := some (data.priority.getD TicketPriority.LOW) }
  | TicketType.TASK =>
      { data with type := TicketType.TASK,
                  priority := some (data.priority.getD TicketPriority.MEDIUM) }

/-- The create-ticket controller: runs the factory, reads
`getMaxOrderIndex(project_id, TODO)`, and inserts the new row with
`status: TicketStatus.TODO` (overriding anything in the spread) and
`order_index: maxOrder + CONFIG.DEFAULT_TICKET_ORDER_INCREMENT`.  `newId`
and `now` stand for the DB-generated id and `created_at`; the `created_by`
column is not modelled.  Returns the created row and the new table. -/
def createTicketController (tickets : List Ticket) (data : CreateTicketDTO)
    (newId : String) (now : Int) : Ticket × List Ticket :=
  let processed := TicketFactory_createTicket data.type data
  let maxOrder := getMaxOrderIndex tickets processed.project_id
    TicketStatus.TODO
  let t : Ticket :=
    { id := newId,
      project_id := processed.project_id,
      title := processed.title,
      status := TicketStatus.TODO,
      priority := processed.priority.getD TicketPriority.MEDIUM,
      type := processed.type,
      order_index := maxOrder + CONFIG_DEFAULT_TICKET_ORDER_INCREMENT,
      created_at := now }
  (t, tickets ++ [t])

/-! ### Ticket move (frontend `handleDragEnd` + backend `moveTicket`) -/

/-- Frontend store `getTicketsByStatus`: filter the cached tickets by
status, then sort ascending by `order_index`. -/
def getTicketsByStatus (tickets : List Ticket) (status : TicketStatus) :
    List Ticket :=
  List.insertionSort (fun a b => a.order_index ≤ b.order_index)
    (tickets.filter (fun t => t.status == status))

/-- Frontend `handleDragEnd` of the Kanban board: returns the
`(status, order_index)` pair passed to the move API, or `none` when no
request is issued.  A drop outside a column, an unknown ticket id, or a
drop on the ticket's current column issues nothing; otherwise the new
index is the LENGTH of the destination column
(`targetColumnTickets.length`). -/
def handleDragEnd (tickets : List Ticket) (ticketId : String)
    (over : Option TicketStatus) : Option (TicketStatus × Int) :=
  match over with
  | none => none
  | some newStatus =>
    match tickets.find? (fun t => t.id == ticketId) with
    | none => none
    | some ticket =>
      if ticket.status == newStatus then none
      else some (newStatus,
        ((getTicketsByStatus tickets newStatus).length : Int))

/-- Backend `moveTicket` controller: 404 when the ticket does not exist,
else writes the client-supplied `{ status, order_index }` verbatim via
`updateTicket` and returns the updated row and table. -/
def moveTicketController (tickets : List Ticket) (ticketId : String)
    (status : TicketStatus) (order_index : Int) :
    Option (Ticket × List Ticket) :=
  match getTicketById tickets ticketId with
  | none => none
  | some _ =>
    let tickets2 := updateTicketStatusOrder tickets ticketId status order_index
    match getTicketById tickets2 ticketId with
    | none => none
    | some t => some (t, tickets2)

/-- The complete drag-and-drop move path: the frontend computes the
request, the backend applies it. -/
def dragMovePipeline (tickets : List Ticket) (ticketId : String)
    (over : Option TicketStatus) : Option (Ticket × List Ticket) :=
  match handleDragEnd tickets ticketId over with
  | none => none
  | some (st, idx) => moveTicketController tickets ticketId st idx

/-! ### Presence claims -/

/-- C5: `isUserOffline` returns true iff the user's `is_online` flag is false
or `now - last_seen` exceeds the 2-minute (120 s) threshold, and an unknown
user id resolves to offline (`true`); the function is total (never throws). -/
theorem isUserOffline_spec (users : List User) (now : Int) (userId : String) :
    (findUserById users userId = none → isUserOffline users now userId = true) ∧
    (∀ u, findUserById users userId = some u →
      (isUserOffline users now userId = true ↔
        (u.is_online = false ∨ now - u.last_seen > 120))) := by
  constructor
  · intro h
    unfold findUserById at h
    unfold isUserOffline
    rw [h]
  · intro u h
    unfold findUserById at h
    unfold isUserOffline
    rw [h]
    simp [Bool.or_eq_true, Bool.not_eq_true', decide_eq_true_iff]

/-- Witness for `isUserOffline_spec`: the empty table at a concrete query. -/
theorem isUserOffline_spec_witness : isUserOffline [] 0 "ghost" = true :=
  (isUserOffline_spec [] 0 "ghost").1 rfl

/-- A one-row users table used in the presence scenarios. -/
def userU : User :=
  { id := "u", email := "u1", is_online := false, last_seen := 0,
    created_at := 0 }

/-- Identity `u` opens two concurrent connections `s1` (at time 10) and `s2`
(at time 20). -/
def stTwoConns : ServerState :=
  onConnection (onConnection { users := [userU], sockets := [] } "s1" "u" 10)
    "s2" "u" 20

/-- C3 counterexample: identity `u` holds two open connections; closing only
`s1` still leaves one open connection (`s2`), yet the disconnect handler
marks `u` offline (`is_online = false`) and `isUserOffline` then returns
true — the code does not reference-count connections. -/
theorem refcount_counterexample :
    ((onDisconnect stTwoConns "s1" 30).sockets.filter
        (fun s => s.userId == "u")).length = 1 ∧
    (onDisconnect stTwoConns "s1" 30).users.map (fun u => (u.id, u.is_online))
      = [("u", false)] ∧
    isUserOffline (onDisconnect stTwoConns "s1" 30).users 30 "u" = true := by
  decide

/-- C3 (amended): connections are not reference-counted — whenever any
connection of an identity disconnects, the handler unconditionally sets that
identity's `is_online` to false, regardless of how many other connections
of the same identity remain open. -/
theorem onDisconnect_no_refcount (st : ServerState) (sid : String) (now : Int)
    (s : Socket) (hfind : st.sockets.find? (fun x => x.sid == sid) = some s) :
    ∀ u ∈ (onDisconnect st sid now).users, u.id = s.userId →
      u.is_online = false := by
  intro u hu hid
  unfold onDisconnect at hu
  rw [hfind] at hu
  exact (setUserOnlineStatus_updated hu hid).1

/-- Witness for `onDisconnect_no_refcount` at the two-connection state. -/
theorem onDisconnect_no_refcount_witness :
    ({ id := "u", email := "u1", is_online := false, last_seen := 30,
       created_at := 0 } : User).is_online = false :=
  onDisconnect_no_refcount stTwoConns "s1" 30
    { sid := "s1", userId := "u", rooms := ["user-u"] } (by decide)
    _ (by decide) rfl

/-- Identity `u` with a single open connection `s1`, opened at time 10. -/
def stOneConn : ServerState :=
  onConnection { users := [userU], sockets := [] } "s1" "u" 10

/-- C7 counterexample: before the (last) disconnect `u`'s `last_seen` is 10;
closing `s1` at time 99 empties the registry and sets `is_online = false`,
but also rewrites `last_seen` to 99 — the disconnect moment — because
`setUserOnlineStatus` always writes `last_seen = CURRENT_TIMESTAMP`. -/
theorem lastSeen_counterexample :
    stOneConn.users.map (fun u => u.last_seen) = [10] ∧
    (onDisconnect stOneConn "s1" 99).sockets = [] ∧
    (onDisconnect stOneConn "s1" 99).users.map
      (fun u => (u.id, u.is_online, u.last_seen)) = [("u", false, 99)] := by
  decide

/-- C7 (amended): when a connection of an identity disconnects (last one or
not), the handler sets `is_online` to false AND overwrites the identity's
`last_seen` with the disconnect time (the SQL update writes
`last_seen = CURRENT_TIMESTAMP` together with the flag). -/
theorem onDisconnect_updates_lastSeen (st : ServerState) (sid : String)
    (now : Int) (s : Socket)
    (hfind : st.sockets.find? (fun x => x.sid == sid) = some s) :
    ∀ u ∈ (onDisconnect st sid now).users, u.id = s.userId →
      u.is_online = false ∧ u.last_seen = now := by
  intro u hu hid
  unfold onDisconnect at hu
  rw [hfind] at hu
  exact setUserOnlineStatus_updated hu hid

/-- Witness for `onDisconnect_updates_lastSeen` at the one-connection
state. -/
theorem onDisconnect_updates_lastSeen_witness :
    ({ id := "u", email := "u1", is_online := false, last_seen := 99,
       created_at := 0 } : User).is_online = false ∧
    ({ id := "u", email := "u1", is_online := false, last_seen := 99,
       created_at := 0 } : User).last_seen = 99 :=
  onDisconnect_updates_lastSeen stOneConn "s1" 99
    { sid := "s1", userId := "u", rooms := ["user-u"] } (by decide)
    _ (by decide) rfl

/-! ### Ordering-engine helper lemmas -/

/-- Bounds for a left fold of `max` over integers. -/
theorem foldl_max_bounds : ∀ (vs : List Int) (v : Int),
    v ≤ vs.foldl max v ∧ ∀ x ∈ vs, x ≤ vs.foldl max v := by
  intro vs
  induction vs with
  | nil =>
    intro v
    exact ⟨le_refl v, by intro x hx; cases hx⟩
  | cons w ws ih =>
    intro v
    have h2 := ih (max v w)
    refine ⟨le_trans (le_max_left v w) h2.1, ?_⟩
    intro x hx
    rcases List.mem_cons.mp hx with he | hx2
    · rw [he]
      exact le_trans (le_max_right v w) h2.1
    · exact h2.2 x hx2

/-- Every ticket already in a lane has `order_index` at most the lane's
`getMaxOrderIndex`. -/
theorem le_getMaxOrderIndex {tickets : List Ticket} {pid : String}
    {st : TicketStatus} {t : Ticket} (hmem : t ∈ tickets)
    (hp : t.project_id = pid) (hs : t.status = st) :
    t.order_index ≤ getMaxOrderIndex tickets pid st := by
  have hf : t ∈ tickets.filter
      (fun x => x.project_id == pid && x.status == st) :=
    List.mem_filter.mpr ⟨hmem, by simp [hp, hs]⟩
  have hm : t.order_index ∈ (tickets.filter
      (fun x => x.project_id == pid && x.status == st)).map
      (fun x => x.order_index) := List.mem_map_of_mem _ hf
  unfold getMaxOrderIndex
  cases hfil : (tickets.filter
      (fun x => x.project_id == pid && x.status == st)).map
      (fun x => x.order_index) with
  | nil => rw [hfil] at hm; cases hm
  | cons v vs =>
    rw [hfil] at hm
    rcases List.mem_cons.mp hm with he | hm2
    · rw [he]; exact (foldl_max_bounds vs v).1
    · exact (foldl_max_bounds vs v).2 _ hm2

/-- The ticket factory never changes `project_id` or `title`. -/
theorem factory_preserves_fields (ty : TicketType) (d : CreateTicketDTO) :
    (TicketFactory_createTicket ty d).project_id = d.project_id ∧
    (TicketFactory_createTicket ty d).title = d.title := by
  cases ty <;> exact ⟨rfl, rfl⟩

/-- A row of the move-update output whose id is the moved id carries the
written `status` and `order_index`. -/
theorem updateTicketStatusOrder_updated {tickets : List Ticket}
    {tid : String} {st : TicketStatus} {idx : Int} {t : Ticket}
    (hmem : t ∈ updateTicketStatusOrder tickets tid st idx)
    (hid : t.id = tid) : t.status = st ∧ t.order_index = idx := by
  rcases List.mem_map.mp hmem with ⟨v, _, hv⟩
  by_cases h : v.id == tid
  · rw [if_pos h] at hv
    subst hv
    exact ⟨rfl, rfl⟩
  · rw [if_neg h] at hv
    subst hv
    exact absurd (beq_iff_eq.mpr hid) h

/-- Reading the moved ticket back out of the updated table yields the
written `status` and `order_index`. -/
theorem getTicketById_after_update {tickets : List Ticket} {tid : String}
    {st : TicketStatus} {idx : Int} {t : Ticket}
    (h : getTicketById (updateTicketStatusOrder tickets tid st idx) tid
      = some t) : t.status = st ∧ t.order_index = idx := by
  unfold getTicketById at h
  have hmem : t ∈ (updateTicketStatusOrder tickets tid st idx).filter
      (fun x => x.id == tid) := by
    apply List.mem_of_mem_head?
    rw [h]
    rfl
  have h2 := List.mem_filter.mp hmem
  exact updateTicketStatusOrder_updated h2.1 (beq_iff_eq.mp h2.2)

/-! ### Ordering-engine claims -/

/-- Ticket `T`, alone in lane `todo` of project `p` with index 1000. -/
def ticketT : Ticket :=
  { id := "T", project_id := "p", title := "T", status := TicketStatus.TODO,
    priority := TicketPriority.MEDIUM, type := TicketType.TASK,
    order_index := 1000, created_at := 0 }

/-- C1 counterexample (the spec's scenario B): moving ticket `T` (lane
`todo`, index 1000) into the empty lane `done` assigns index 0 — the number
of tickets in the destination column — not `0 + INCREMENT = 1000`; and a
same-lane drop issues no move at all instead of appending at
`max + INCREMENT`. -/
theorem move_counterexample :
    (dragMovePipeline [ticketT] "T" (some TicketStatus.DONE)).map
      (fun r => (r.1.status, r.1.order_index))
      = some (TicketStatus.DONE, 0) ∧
    getMaxOrderIndex [ticketT] "p" TicketStatus.DONE +
      CONFIG_DEFAULT_TICKET_ORDER_INCREMENT = 1000 ∧
    dragMovePipeline [ticketT] "T" (some TicketStatus.TODO) = none := by
  decide

/-- C1 (amended): the move path never computes `max + INCREMENT`.  A drop
on the ticket's current column issues no request (same-lane reorders do not
exist); a cross-lane drop sends `order_index` equal to the LENGTH of the
destination column as cached by the frontend; and the backend writes the
client-supplied `(status, order_index)` pair verbatim. -/
theorem moveTicket_uses_client_index (tickets : List Ticket)
    (ticketId : String) (newStatus : TicketStatus) :
    (∀ t, tickets.find? (fun x => x.id == ticketId) = some t →
      t.status = newStatus →
      handleDragEnd tickets ticketId (some newStatus) = none) ∧
    (∀ t, tickets.find? (fun x => x.id == ticketId) = some t →
      t.status ≠ newStatus →
      handleDragEnd tickets ticketId (some newStatus) =
        some (newStatus,
          ((getTicketsByStatus tickets newStatus).length : Int))) ∧
    (∀ idx t2 db2,
      moveTicketController tickets ticketId newStatus idx = some (t2, db2) →
      t2.status = newStatus ∧ t2.order_index = idx ∧
      db2 = updateTicketStatusOrder tickets ticketId newStatus idx) := by
  refine ⟨?_, ?_, ?_⟩
  · intro t h hst
    unfold handleDragEnd
    rw [h]
    simp [hst]
  · intro t h hst
    unfold handleDragEnd
    rw [h]
    simp [hst]
  · intro idx t2 db2 h
    unfold moveTicketController at h
    cases h1 : getTicketById tickets ticketId with
    | none => rw [h1] at h; simp at h
    | some t0 =>
      rw [h1] at h
      dsimp only at h
      cases h2 : getTicketById
          (updateTicketStatusOrder tickets ticketId newStatus idx)
          ticketId with
      | none => rw [h2] at h; simp at h
      | some t3 =>
        rw [h2] at h
        simp only [Option.some.injEq, Prod.mk.injEq] at h
        obtain ⟨rfl, rfl⟩ := h
        have h3 := getTicketById_after_update h2
        exact ⟨h3.1, h3.2, rfl⟩

/-- Ticket `T` after the concrete move of the counterexample. -/
def ticketTDone : Ticket :=
  { id := "T", project_id := "p", title := "T", status := TicketStatus.DONE,
    priority := TicketPriority.MEDIUM, type := TicketType.TASK,
    order_index := 0, created_at := 0 }

/-- Witness for `moveTicket_uses_client_index`: the backend applies the
client pair `(DONE, 0)` verbatim to ticket `T`. -/
theorem moveTicket_uses_client_index_witness :
    ticketTDone.status = TicketStatus.DONE ∧ ticketTDone.order_index = 0 ∧
    [ticketTDone] =
      updateTicketStatusOrder [ticketT] "T" TicketStatus.DONE 0 :=
  (moveTicket_uses_client_index [ticketT] "T" TicketStatus.DONE).2.2 0
    ticketTDone [ticketTDone] (by decide)

/-- C10: every created ticket lands in the `todo` lane (whatever the client
supplied), with `order_index = getMaxOrderIndex(project, todo) + 1000`,
which strictly exceeds every existing index in that lane and is 1000 for an
empty lane; the row is inserted into the table. -/
theorem createTicket_appends_to_todo (tickets : List Ticket)
    (data : CreateTicketDTO) (newId : String) (now : Int) :
    (createTicketController tickets data newId now).1.status
      = TicketStatus.TODO ∧
    (createTicketController tickets data newId now).1.order_index =
      getMaxOrderIndex tickets data.project_id TicketStatus.TODO +
        CONFIG_DEFAULT_TICKET_ORDER_INCREMENT ∧
    CONFIG_DEFAULT_TICKET_ORDER_INCREMENT = 1000 ∧
    (∀ t ∈ tickets, t.project_id = data.project_id →
      t.status = TicketStatus.TODO →
      t.order_index <
        (createTicketController tickets data newId now).1.order_index) ∧
    (tickets.filter (fun t => t.project_id == data.project_id &&
        t.status == TicketStatus.TODO) = [] →
      (createTicketController tickets data newId now).1.order_index = 1000) ∧
    (createTicketController tickets data newId now).2 =
      tickets ++ [(createTicketController tickets data newId now).1] := by
  have hproj := (factory_preserves_fields data.type data).1
  have hidx : (createTicketController tickets data newId now).1.order_index =
      getMaxOrderIndex tickets data.project_id TicketStatus.TODO +
        CONFIG_DEFAULT_TICKET_ORDER_INCREMENT := by
    show getMaxOrderIndex tickets
        (TicketFactory_createTicket data.type data).project_id
        TicketStatus.TODO + CONFIG_DEFAULT_TICKET_ORDER_INCREMENT = _
    rw [hproj]
  refine ⟨rfl, hidx, rfl, ?_, ?_, rfl⟩
  · intro t hmem hp hs
    rw [hidx]
    have hle := le_getMaxOrderIndex hmem hp hs
    unfold CONFIG_DEFAULT_TICKET_ORDER_INCREMENT
    omega
  · intro hempty
    rw [hidx]
    unfold getMaxOrderIndex
    rw [hempty]
    rfl

/-- A concrete create request carrying an extraneous client status. -/
def dataReq : CreateTicketDTO :=
  { project_id := "p", title := "x", priority := none,
    type := TicketType.TASK, clientStatus := some TicketStatus.DONE }

/-- Witness for `createTicket_appends_to_todo`: creating into an empty
table yields a `todo` ticket with index 1000. -/
theorem createTicket_appends_to_todo_witness :
    (createTicketController [] dataReq "t1" 7).1.order_index = 1000 :=
  (createTicket_appends_to_todo [] dataReq "t1" 7).2.2.2.2.1 rfl

/-- Tickets `a` and `b`: same project, same lane, equal `order_index`, but
`a` (stored first) was created AFTER `b`. -/
def ticketA : Ticket :=
  { id := "a", project_id := "p", title := "a", status := TicketStatus.TODO,
    priority := TicketPriority.MEDIUM, type := TicketType.TASK,
    order_index := 5, created_at := 100 }

/-- See `ticketA`. -/
def ticketB : Ticket :=
  { id := "b", project_id := "p", title := "b", status := TicketStatus.TODO,
    priority := TicketPriority.MEDIUM, type := TicketType.TASK,
    order_index := 5, created_at := 50 }

/-- C8 counterexample: two tickets tie on `order_index = 5`, yet the lane
listing returns the LATER-created `a` (created_at 100) before `b`
(created_at 50) — the claimed deterministic (creation timestamp, id)
tie-break does not exist: the SQL orders by (status, order_index) only. -/
theorem tiebreak_counterexample :
    (listByLane [ticketA, ticketB] "p" TicketStatus.TODO).map
      (fun t => (t.order_index, t.created_at, t.id))
      = [(5, 100, "a"), (5, 50, "b")] ∧
    (50 : Int) < 100 := by
  decide

/-- C8 (amended): `listByLane` returns the lane's tickets with
non-decreasing `order_index` (ascending sort), but rows with equal
`order_index` carry no secondary (creation timestamp, id) key — their
relative order is whatever the store returns. -/
theorem listByLane_sorted (tickets : List Ticket) (projectId : String)
    (lane : TicketStatus) :
    List.Sorted (fun a b : Ticket => a.order_index ≤ b.order_index)
      (listByLane tickets projectId lane) := by
  have hs : List.Sorted ticketSqlLe (getProjectTickets tickets projectId) :=
    List.sorted_insertionSort ticketSqlLe _
  have hf : List.Sorted ticketSqlLe
      ((getProjectTickets tickets projectId).filter
        (fun t => t.status == lane)) := hs.filter _
  unfold listByLane
  refine List.Pairwise.imp_of_mem ?_ hf
  intro a b ha hb hab
  have ha2 : a.status = lane := beq_iff_eq.mp (List.mem_filter.mp ha).2
  have hb2 : b.status = lane := beq_iff_eq.mp (List.mem_filter.mp hb).2
  rcases hab with h | ⟨_, h2⟩
  · rw [ha2, hb2] at h
    exact absurd h (lt_irrefl _)
  · exact h2

/-! ### Notification router (`services/notificationService.ts`) -/

/-- Delivery channel of one notification. -/
inductive Channel
  | push
  | email
  deriving DecidableEq

/-- The body of the per-user loop of `notifyAllUsers`, wrapped in its
per-user `try/catch`: if the user id is among the currently connected
socket user ids, a Socket.io `notification` is emitted to room
`user-<id>`; otherwise, if `isUserOffline` holds, a fallback email is
sent; otherwise the user is skipped ("recently active").  `fails` is the
set of recipients whose send throws: the catch logs and the loop
continues, so a failing recipient yields no delivery. -/
def deliverOne (connectedUserIds : List String) (users : List User)
    (now : Int) (fails : List String) (u : User) :
    Option (String × Channel) :=
  if connectedUserIds.contains u.id then
    if fails.contains u.id then none else some (u.id, Channel.push)
  else if isUserOffline users now u.id then
    if fails.contains u.id then none else some (u.id, Channel.email)
  else none

/-- `notifyAllUsers`: fetches `getAllUsersExcept excludeUserId` and the
connected socket user ids, then runs the per-user delivery loop; returns
the list of performed deliveries in loop order. -/
def notifyAllUsers (users : List User) (connectedUserIds : List String)
    (now : Int) (excludeUserId : String) (fails : List String) :
    List (String × Channel) :=
  (getAllUsersExcept users excludeUserId).filterMap
    (deliverOne connectedUserIds users now fails)

/-- The connected socket user ids, as computed by `io.fetchSockets()`
followed by `socket.data.user.userId`. -/
def connectedUserIds (st : ServerState) : List String :=
  st.sockets.map (fun s => s.userId)

/-- The move controller followed by its notification fan-out: the table
update is committed first, then `notifyAllUsers` runs (it never touches
the tickets table). -/
def moveTicketAndNotify (tickets : List Ticket) (users : List User)
    (connected : List String) (now : Int) (ticketId : String)
    (st : TicketStatus) (idx : Int) (actorId : String)
    (fails : List String) :
    Option (List Ticket × List (String × Channel)) :=
  match moveTicketController tickets ticketId st idx with
  | none => none
  | some (_, db2) =>
      some (db2, notifyAllUsers users connected now actorId fails)

/-! ### Notification helper lemmas -/

/-- A delivery produced for user `u` is tagged with `u.id`. -/
theorem deliverOne_id {connected : List String} {users : List User}
    {now : Int} {fails : List String} {u : User} {d : String × Channel}
    (h : deliverOne connected users now fails u = some d) : d.1 = u.id := by
  unfold deliverOne at h
  split_ifs at h <;> cases h <;> rfl

/-- Whether other recipients fail is irrelevant to the delivery computed
for a non-failing recipient. -/
theorem deliverOne_fails_irrelevant {connected : List String}
    {users : List User} {now : Int} {fails : List String} {uid : String}
    (hnf : fails.contains uid = false) (u : User) (hid : u.id = uid) :
    deliverOne connected users now fails u =
      deliverOne connected users now [] u := by
  have hnf2 : uid ∉ fails := by simpa using hnf
  simp [deliverOne, hid, hnf2]

/-- Restricting the delivery list to one non-failing recipient is
unaffected by failures of the other recipients. -/
theorem filterMap_deliver_fails_eq {connected : List String}
    {users : List User} {now : Int} {fails : List String} {uid : String}
    (hnf : fails.contains uid = false) :
    ∀ l : List User,
      (l.filterMap (deliverOne connected users now fails)).filter
          (fun d => d.1 == uid) =
        (l.filterMap (deliverOne connected users now [])).filter
          (fun d => d.1 == uid) := by
  intro l
  induction l with
  | nil => rfl
  | cons u us ih =>
    rw [List.filterMap_cons, List.filterMap_cons]
    by_cases hid : u.id = uid
    · rw [deliverOne_fails_irrelevant hnf u hid]
      cases deliverOne connected users now [] u with
      | none => exact ih
      | some b =>
        rw [List.filter_cons, List.filter_cons, ih]
    · cases hf : deliverOne connected users now fails u with
      | none =>
        cases hg : deliverOne connected users now [] u with
        | none => exact ih
        | some b =>
          have hpb : (b.1 == uid) = false := by
            rw [deliverOne_id hg]
            exact beq_eq_false_iff_ne.mpr hid
          rw [List.filter_cons, hpb]
          exact ih
      | some b =>
        have hpb : (b.1 == uid) = false := by
          rw [deliverOne_id hf]
          exact beq_eq_false_iff_ne.mpr hid
        cases hg : deliverOne connected users now [] u with
        | none =>
          rw [List.filter_cons, hpb]
          exact ih
        | some b2 =>
          have hpb2 : (b2.1 == uid) = false := by
            rw [deliverOne_id hg]
            exact beq_eq_false_iff_ne.mpr hid
          rw [List.filter_cons, hpb, List.filter_cons, hpb2]
          exact ih

/-- The channel of any delivery follows the connected/offline decision of
the loop. -/
theorem notify_mem_channel {users : List User} {connected : List String}
    {now : Int} {excludeUserId : String} {fails : List String}
    {uid : String} {ch : Channel}
    (hmem : (uid, ch) ∈ notifyAllUsers users connected now excludeUserId
      fails) :
    (connected.contains uid = true ∧ ch = Channel.push) ∨
      (connected.contains uid = false ∧ isUserOffline users now uid = true ∧
        ch = Channel.email) := by
  rcases List.mem_filterMap.mp hmem with ⟨u, _, hdel⟩
  unfold deliverOne at hdel
  by_cases h1 : connected.contains u.id = true
  · rw [if_pos h1] at hdel
    by_cases h2 : fails.contains u.id = true
    · rw [if_pos h2] at hdel
      cases hdel
    · rw [if_neg h2] at hdel
      cases hdel
      exact Or.inl ⟨h1, rfl⟩
  · rw [if_neg h1] at hdel
    by_cases h3 : isUserOffline users now u.id = true
    · rw [if_pos h3] at hdel
      by_cases h4 : fails.contains u.id = true
      · rw [if_pos h4] at hdel
        cases hdel
      · rw [if_neg h4] at hdel
        cases hdel
        exact Or.inr ⟨by simpa using h1, h3, rfl⟩
    · rw [if_neg h3] at hdel
      cases hdel

/-! ### Notification claims -/

/-- C4: per publish call and per recipient, delivery happens through
exactly one channel — push when the recipient has a live connection, else
email when `isUserOffline` holds, else none — and never through both
channels in one call. -/
theorem notify_channel_exclusive (users : List User)
    (connected : List String) (now : Int) (excludeUserId : String)
    (fails : List String) (uid : String) :
    (∀ ch, (uid, ch) ∈ notifyAllUsers users connected now excludeUserId
        fails →
      (connected.contains uid = true ∧ ch = Channel.push) ∨
        (connected.contains uid = false ∧
          isUserOffline users now uid = true ∧ ch = Channel.email)) ∧
    ¬((uid, Channel.push) ∈ notifyAllUsers users connected now
        excludeUserId fails ∧
      (uid, Channel.email) ∈ notifyAllUsers users connected now
        excludeUserId fails) := by
  constructor
  · intro ch hmem
    exact notify_mem_channel hmem
  · rintro ⟨hp, he⟩
    rcases notify_mem_channel hp with ⟨hc, _⟩ | ⟨_, _, hbad⟩
    · rcases notify_mem_channel he with ⟨_, hbad⟩ | ⟨hc2, _, _⟩
      · cases hbad
      · rw [hc] at hc2
        cases hc2
    · cases hbad

/-- Two recipients used in notification scenarios: `a` (the actor) and a
connected `b`. -/
def userA : User :=
  { id := "a", email := "a1", is_online := true, last_seen := 0,
    created_at := 0 }

/-- See `userA`. -/
def userB : User :=
  { id := "b", email := "b1", is_online := true, last_seen := 0,
    created_at := 1 }

/-- Witness for `notify_channel_exclusive`: with `b` connected, the
delivery recorded for `b` is a push. -/
theorem notify_channel_exclusive_witness :
    (["b"].contains "b" = true ∧ Channel.push = Channel.push) ∨
      (["b"].contains "b" = false ∧
        isUserOffline [userA, userB] 0 "b" = true ∧
        Channel.push = Channel.email) :=
  (notify_channel_exclusive [userA, userB] ["b"] 0 "a" [] "b").1
    Channel.push (by decide)

/-- C9: a publish call never notifies the excluded actor on any channel:
every recorded delivery is tagged with a recipient id different from
`excludeUserId`. -/
theorem notify_excludes_actor (users : List User) (connected : List String)
    (now : Int) (excludeUserId : String) (fails : List String) :
    (notifyAllUsers users connected now excludeUserId fails).all
      (fun d => d.1 != excludeUserId) = true := by
  rw [List.all_eq_true]
  intro d hd
  rcases List.mem_filterMap.mp hd with ⟨u, hu, hdel⟩
  have hne : (u.id != excludeUserId) = true := by
    unfold getAllUsersExcept at hu
    exact (List.mem_filter.mp ((List.mem_insertionSort _).mp hu)).2
  rw [deliverOne_id hdel]
  exact hne

/-- C6: a failing delivery for some recipients does not change what any
non-failing recipient receives, and the already-committed ticket mutation
is unaffected by delivery failures. -/
theorem notify_failure_isolated (tickets : List Ticket) (users : List User)
    (connected : List String) (now : Int) (ticketId : String)
    (st : TicketStatus) (idx : Int) (actorId : String)
    (fails : List String) (uid : String)
    (hnf : fails.contains uid = false) :
    ((notifyAllUsers users connected now actorId fails).filter
        (fun d => d.1 == uid) =
      (notifyAllUsers users connected now actorId []).filter
        (fun d => d.1 == uid)) ∧
    (moveTicketAndNotify tickets users connected now ticketId st idx
        actorId fails).map (fun r => r.1) =
      (moveTicketAndNotify tickets users connected now ticketId st idx
        actorId []).map (fun r => r.1) := by
  constructor
  · unfold notifyAllUsers
    exact filterMap_deliver_fails_eq hnf _
  · unfold moveTicketAndNotify
    cases moveTicketController tickets ticketId st idx with
    | none => rfl
    | some p => rfl

/-- Witness for `notify_failure_isolated`: recipient `b` is untouched by a
failure set naming only `x`, and the committed move is identical. -/
theorem notify_failure_isolated_witness :
    ((notifyAllUsers [userA, userB] ["b"] 0 "a" ["x"]).filter
        (fun d => d.1 == "b") =
      (notifyAllUsers [userA, userB] ["b"] 0 "a" []).filter
        (fun d => d.1 == "b")) ∧
    (moveTicketAndNotify [ticketT] [userA, userB] ["b"] 0 "T"
        TicketStatus.DONE 0 "a" ["x"]).map (fun r => r.1) =
      (moveTicketAndNotify [ticketT] [userA, userB] ["b"] 0 "T"
        TicketStatus.DONE 0 "a" []).map (fun r => r.1) :=
  notify_failure_isolated [ticketT] [userA, userB] ["b"] 0 "T"
    TicketStatus.DONE 0 "a" ["x"] "b" (by decide)

/-! ### Board-room broadcast (C2) -/

/-- Socket `s1` of identity `u` connects and issues `join-project` for
project `P` (so it is subscribed to the project room). -/
def stBoard : ServerState :=
  onJoinProject (onConnection { users := [userU], sockets := [] } "s1" "u" 5)
    "s1" "P"

/-- C2 (code bug): socket `s1` is subscribed to project `P`'s room — the
`join-project` handler put it in room `project-P` — yet the server-side
board-update broadcast for a committed mutation goes to room `project:P`
(`notifyProjectRoom` and every inline `io.to` in the ticket controller),
which has no members: the subscribed connection receives nothing.  The
repository's README documents the broadcast as going to the
`project-<id>` room, so the two room keys were meant to match. -/
theorem room_mismatch :
    (stBoard.sockets.filter
        (fun s => s.rooms.contains ("project-" ++ "P"))).map
        (fun s => s.sid) = ["s1"] ∧
    notifyProjectRoom stBoard "P" = [] := by
  decide

end TicketDashboard
